import Mathlib

/-
Verification of the x2017 virtual machine core (src/src/vm_x2017.c) against its
natural-language specification.  The machine is shallowly embedded: RAM and the
register file are total functions from addresses to byte values, the global
stack pointer and program counter are fields of an explicit machine state, and
the fatal `errx` aborts of the C code become `Except` errors.  Every byte-wide
store narrows its value modulo 256, mirroring the `uint8_t` cells of the C
implementation.
-/

namespace X2017

/-- Pointwise update of a total function at one point; models a store into a
C array cell (`a[i] = v`). -/
def upd {α : Type} (f : Nat → α) (a : Nat) (v : α) : Nat → α :=
  fun x => if x = a then v else f x

/-- Narrowing of a value to a byte, as happens on every assignment into a
`uint8_t` variable or array cell. -/
def u8 (n : Nat) : Nat := n % 256

/-- Byte subtraction `a - b` as C integer arithmetic narrowed to a byte on
assignment: congruent to `a - b` modulo 256. -/
def u8sub (a b : Nat) : Nat := (a + 256 - b % 256) % 256

/-- RAM_SIZE from lib/vm_x2017.h: `(1 << 8)`. -/
def RAM_SIZE : Nat := 256

/-- NUM_REGISTERS from lib/vm_x2017.h. -/
def NUM_REGISTERS : Nat := 8

/-- Modelled from the spec: the maximum function count is a capacity constant of
the external loader's header (parser.h), which is not under src/; the spec
leaves the exact value as a configuration parameter (function labels are small
unsigned integers).  The first MAX_FUNCTIONS bytes of RAM form the
function-address table and the next MAX_FUNCTIONS bytes the frame-size table. -/
def MAX_FUNCTIONS : Nat := 8

/-- Modelled from the spec: the per-function instruction limit is a capacity
constant of the loader's header (parser.h), not under src/.  The bootstrap uses
it as the impossible default entry-point value, which the code compares against
UINT8_MAX, fixing it at 255. -/
def MAX_INSTRUCTIONS : Nat := 255

/-- Modelled from the spec: the base of the call-stack region of RAM, a
configuration constant from parser.h (not under src/); the stack region sits
above the two label-indexed tables. -/
def STACK_START : Nat := 2 * MAX_FUNCTIONS

/-- Modelled from the spec: the fixed high-water mark of the stack region, a
configuration constant from parser.h (not under src/); the reserved capacity
bound used by the overflow check, taken as the last RAM address. -/
def STACK_MAX : Nat := RAM_SIZE - 1

/-- Modelled from the spec: the distinguished label of the entry function, a
constant from parser.h (not under src/). -/
def MAIN_FUNC : Nat := 0

/-- Addressing mode tag of an operand (arg_t.type). -/
inductive ArgType : Type where
  | VAL : ArgType
  | REG : ArgType
  | STACK : ArgType
  | PTR : ArgType
deriving DecidableEq, Repr

/-- An instruction operand: an addressing mode and a byte value (arg_t). -/
structure arg_t : Type where
  type : ArgType
  value : Nat
deriving DecidableEq, Repr

/-- Opcode tag (inst_t.opcode). -/
inductive Opcode : Type where
  | MOV : Opcode
  | CAL : Opcode
  | RET : Opcode
  | REF : Opcode
  | ADD : Opcode
  | PRINT : Opcode
  | NOT : Opcode
  | EQU : Opcode
deriving DecidableEq, Repr

/-- A decoded instruction (inst_t). -/
structure inst_t : Type where
  opcode : Opcode
  arg1 : arg_t
  arg2 : arg_t
deriving DecidableEq, Repr

/-- A loaded function record (func_t): label, frame size and its instruction
list; the C `size` field is the length of the list. -/
structure func_t : Type where
  label : Nat
  frame_size : Nat
  instructions : List inst_t
deriving DecidableEq, Repr

/-- The VM machine state.  `ram` and `registers` model the byte arrays of
vm_x2017; `sp` and `pc` model the ambient global STACK_PTR and PROG_CTR
(byte-wide in the original); `output` records the PRINT channel, the VM's only
observable output. -/
structure VMState : Type where
  ram : Nat → Nat
  registers : Nat → Nat
  pc : Nat
  sp : Nat
  output : List Nat

/-- Fatal conditions: each `errx` abort of the C code, tagged with the
constraint it reports.  StackOverflow additionally records the machine state at
the instant of the abort (the process dies there in C; carrying the state makes
the mutations that precede the abort statable). -/
inductive VMErr : Type where
  | BadMovArg1 : VMErr
  | BadCalArg1 : VMErr
  | BadRefArg2 : VMErr
  | BadAddArgs : VMErr
  | BadNotArg1 : VMErr
  | BadEquArg1 : VMErr
  | StackOverflow : Nat → VMState → VMErr
  | NoRet : Nat → VMErr
  | NoMain : VMErr

/-- Modelled from the spec: the STACK_LOC macro of parser.h (not under src/)
resolves an operand's symbolic offset against the current stack pointer to a
RAM address.  Frames are constructed backwards with the stack pointer at the
high edge of the current frame, so the symbol's address is the stack pointer
minus the offset, in byte arithmetic. -/
def STACK_LOC (sp sym : Nat) : Nat := (sp + 256 - sym % 256) % 256

/-- arg_value from vm_x2017.c: reads the byte an operand denotes, staging
intermediate addresses through scratch registers 4 and 5.  Returns the value
together with the updated register file. -/
def arg_value (a : arg_t) (ram : Nat → Nat) (registers : Nat → Nat) (sp : Nat) :
    Nat × (Nat → Nat) :=
  match a.type with
  | ArgType.VAL => (a.value, registers)
  | ArgType.REG => (registers a.value, registers)
  | ArgType.STACK =>
      let regs1 := upd registers 4 (STACK_LOC sp a.value)
      (ram (regs1 4), regs1)
  | ArgType.PTR =>
      let regs1 := upd registers 4 (STACK_LOC sp a.value)
      let regs2 := upd regs1 5 (u8 (ram (regs1 4)))
      (ram (regs2 5), regs2)

/-- mov from vm_x2017.c: stores the staged value in scratch register 4 into the
location denoted by the destination operand; a VAL destination falls through
the switch (the parser never produces it).  Returns the updated RAM and
register file. -/
def mov (a : arg_t) (ram : Nat → Nat) (registers : Nat → Nat) (sp : Nat) :
    (Nat → Nat) × (Nat → Nat) :=
  match a.type with
  | ArgType.REG => (ram, upd registers a.value (u8 (registers 4)))
  | ArgType.STACK =>
      let regs1 := upd registers 5 (STACK_LOC sp a.value)
      (upd ram (regs1 5) (u8 (regs1 4)), regs1)
  | ArgType.PTR =>
      let regs1 := upd registers 5 (STACK_LOC sp a.value)
      let regs2 := upd regs1 5 (u8 (ram (regs1 5)))
      (upd ram (regs2 5) (u8 (regs2 4)), regs2)
  | ArgType.VAL => (ram, registers)

/-- call_function from vm_x2017.c: checks the stack capacity bound, lays the
two-byte linkage header above the new frame, and redirects stack pointer and
program counter.  The frame-size and instruction-address table reads
(FRAME_SIZE, INSTR_ADDR macros from parser.h) are reads of the byte tables at
the base of RAM. -/
def call_function (label : Nat) (s : VMState) : Except VMErr VMState :=
  let bound := u8sub (u8sub STACK_MAX (s.ram (MAX_FUNCTIONS + label))) 4
  let regs1 := upd s.registers 4 bound
  if s.sp > bound then
    Except.error (VMErr.StackOverflow label { s with registers := regs1 })
  else
    let regs2 := upd regs1 4 (u8 (s.sp + 2 + s.ram (MAX_FUNCTIONS + label)))
    let regs3 := upd regs2 5 (u8 (regs2 4 + 1))
    let ram1 := upd s.ram (regs3 5) (u8 s.sp)
    let regs4 := upd regs3 5 (u8 (regs3 5 + 1))
    let ram2 := upd ram1 (regs4 5) (u8 s.pc)
    Except.ok { ram := ram2, registers := regs4, pc := u8 (ram2 label),
                sp := regs2 4, output := s.output }

/-- run_instruction from vm_x2017.c: executes one decoded instruction on the
machine state.  Returns the new state together with the halt flag the C
function returns (true exactly for the `return 1` of a RET from the entry
frame); the `errx` aborts become errors. -/
def run_instruction (inst : inst_t) (s : VMState) :
    Except VMErr (VMState × Bool) :=
  match inst.opcode with
  | Opcode.MOV =>
      if inst.arg1.type = ArgType.VAL then
        Except.error VMErr.BadMovArg1
      else
        let va := arg_value inst.arg2 s.ram s.registers s.sp
        let regs := upd va.2 4 (u8 va.1)
        let mr := mov inst.arg1 s.ram regs s.sp
        Except.ok ({ s with ram := mr.1, registers := mr.2 }, false)
  | Opcode.CAL =>
      if inst.arg1.type ≠ ArgType.VAL then
        Except.error VMErr.BadCalArg1
      else
        match call_function inst.arg1.value s with
        | Except.error e => Except.error e
        | Except.ok s' => Except.ok (s', false)
  | Opcode.RET =>
      let regs := upd s.registers 4 (u8 (s.sp + 1))
      if s.ram (regs 4) = 0 then
        Except.ok ({ s with registers := regs }, true)
      else
        let regs1 := upd regs 4 (u8 (regs 4 + 1))
        Except.ok ({ s with registers := regs1,
                            sp := u8 (s.ram (regs 4)),
                            pc := u8 (s.ram (regs1 4)) }, false)
  | Opcode.REF =>
      if inst.arg2.type ≠ ArgType.STACK ∧ inst.arg2.type ≠ ArgType.PTR then
        Except.error VMErr.BadRefArg2
      else
        let regs1 := upd s.registers 4 (STACK_LOC s.sp inst.arg2.value)
        let regs2 :=
          if inst.arg2.type = ArgType.PTR then upd regs1 4 (u8 (s.ram (regs1 4)))
          else regs1
        let mr := mov inst.arg1 s.ram regs2 s.sp
        Except.ok ({ s with ram := mr.1, registers := mr.2 }, false)
  | Opcode.ADD =>
      if inst.arg1.type ≠ ArgType.REG ∨ inst.arg2.type ≠ ArgType.REG then
        Except.error VMErr.BadAddArgs
      else
        let regs := upd s.registers inst.arg1.value
          (u8 (s.registers inst.arg1.value + s.registers inst.arg2.value))
        Except.ok ({ s with registers := regs }, false)
  | Opcode.PRINT =>
      let va := arg_value inst.arg1 s.ram s.registers s.sp
      let regs := upd va.2 4 (u8 va.1)
      Except.ok ({ s with registers := regs,
                          output := s.output ++ [regs 4] }, false)
  | Opcode.NOT =>
      if inst.arg1.type ≠ ArgType.REG then
        Except.error VMErr.BadNotArg1
      else
        let regs := upd s.registers inst.arg1.value
          (255 - u8 (s.registers inst.arg1.value))
        Except.ok ({ s with registers := regs }, false)
  | Opcode.EQU =>
      if inst.arg1.type ≠ ArgType.REG then
        Except.error VMErr.BadEquArg1
      else
        let regs := upd s.registers inst.arg1.value
          (if s.registers inst.arg1.value = 0 then 1 else 0)
        Except.ok ({ s with registers := regs }, false)

/-- One iteration of the dispatcher loop of vm_x2017:
`run_instruction(instructions[PROG_CTR++], ram, registers)` — the instruction
is fetched at the current program counter and the counter is incremented (as a
byte) before the instruction executes. -/
def step (prog : Nat → inst_t) (s : VMState) : Except VMErr (VMState × Bool) :=
  run_instruction (prog s.pc) { s with pc := u8 (s.pc + 1) }

/-- The inner copy loop of the bootstrap: lays a function's instructions into
the flat instruction stream starting at the running byte index. -/
def copy_insts (insts : List inst_t) (prog : Nat → inst_t) (idx : Nat) :
    (Nat → inst_t) × Nat :=
  match insts with
  | [] => (prog, idx)
  | i :: rest => copy_insts rest (upd prog (u8 idx) i) (u8 (idx + 1))

/-- The bootstrap layout loop of vm_x2017: visits the function table in reverse
index order, records each non-empty function's entry address and frame size in
the RAM tables, rejects a function whose last instruction is not RET, and
copies its instructions into the flat stream. -/
def load_funcs (is : List Nat) (functions : List func_t) (ram : Nat → Nat)
    (prog : Nat → inst_t) (idx : Nat) :
    Except VMErr ((Nat → Nat) × (Nat → inst_t) × Nat) :=
  match is with
  | [] => Except.ok (ram, prog, idx)
  | i :: rest =>
      let f := functions.getD (MAX_FUNCTIONS - i - 1)
        { label := 0, frame_size := 0, instructions := [] }
      if f.instructions.length = 0 then
        load_funcs rest functions ram prog idx
      else
        let ram1 := upd ram f.label (u8 idx)
        match f.instructions.getLast? with
        | none => Except.error (VMErr.NoRet f.label)
        | some last =>
            if last.opcode = Opcode.RET then
              let cp := copy_insts f.instructions prog idx
              load_funcs rest functions
                (upd ram1 (MAX_FUNCTIONS + f.label) (u8 f.frame_size)) cp.1 cp.2
            else
              Except.error (VMErr.NoRet f.label)

/-- The bootstrap of vm_x2017 up to the top of the dispatcher loop: initialises
the function-address table to the impossible default, lays out the functions,
locates the entry function, sets the initial stack pointer above the entry
frame and writes the zero sentinel link pointer into the entry frame's header.
Uninitialised C memory (the stack region of ram, the registers, the instruction
array) is modelled as zero-filled.  Returns the initial machine state and the
flat instruction stream. -/
def vm_x2017 (functions : List func_t) :
    Except VMErr (VMState × (Nat → inst_t)) :=
  match load_funcs (List.range MAX_FUNCTIONS) functions
      (fun a => if a < MAX_FUNCTIONS then MAX_INSTRUCTIONS else 0)
      (fun _ => { opcode := Opcode.RET,
                  arg1 := { type := ArgType.VAL, value := 0 },
                  arg2 := { type := ArgType.VAL, value := 0 } }) 0 with
  | Except.error e => Except.error e
  | Except.ok (ram1, prog, _) =>
      if u8 (ram1 MAIN_FUNC) = 255 then
        Except.error VMErr.NoMain
      else
        Except.ok ({ ram := upd ram1
                       (u8 (u8 (STACK_START + ram1 (MAX_FUNCTIONS + MAIN_FUNC)) + 1)) 0,
                     registers := fun _ => 0,
                     pc := u8 (ram1 MAIN_FUNC),
                     sp := u8 (STACK_START + ram1 (MAX_FUNCTIONS + MAIN_FUNC)),
                     output := [] }, prog)

/-- Reading an updated cell at the written address gives the written value. -/
theorem upd_same {α : Type} (f : Nat → α) (a : Nat) (v : α) : upd f a v a = v := by
  simp [upd]

/-- Reading an updated cell elsewhere gives the old value. -/
theorem upd_ne {α : Type} (f : Nat → α) (a : Nat) (v : α) (b : Nat) (h : b ≠ a) :
    upd f a v b = f b := by
  simp [upd, h]

/-- Byte truncation is idempotent. -/
theorem u8_u8 (n : Nat) : u8 (u8 n) = u8 n := by
  unfold u8; omega

/-- Incrementing a byte never returns the same byte. -/
theorem u8_succ_ne (n : Nat) : u8 (u8 n + 1) ≠ u8 n := by
  unfold u8; omega

/-- Two successive byte increments amount to adding two. -/
theorem u8_succ_succ (n : Nat) : u8 (u8 (n + 1) + 1) = u8 (n + 2) := by
  unfold u8; omega

/-- Unfolding of a successful call: when the capacity check passes,
call_function returns a state whose stack pointer is the old one advanced by
2 + frame size (as a byte), whose linkage header above the new frame holds the
caller's stack pointer and program counter, and which leaves every other RAM
byte and every register other than the two scratch slots unchanged. -/
theorem call_function_ok (s : VMState) (label : Nat)
    (h : ¬ s.sp > u8sub (u8sub STACK_MAX (s.ram (MAX_FUNCTIONS + label))) 4) :
    ∃ s', call_function label s = Except.ok s' ∧
      s'.sp = u8 (s.sp + 2 + s.ram (MAX_FUNCTIONS + label)) ∧
      s'.pc = u8 (s'.ram label) ∧
      s'.output = s.output ∧
      s'.ram (u8 (s'.sp + 1)) = u8 s.sp ∧
      s'.ram (u8 (s'.sp + 2)) = u8 s.pc ∧
      (∀ a, a ≠ u8 (s'.sp + 1) → a ≠ u8 (s'.sp + 2) → s'.ram a = s.ram a) ∧
      (∀ j, j ≠ 4 → j ≠ 5 → s'.registers j = s.registers j) := by
  simp only [call_function]
  rw [if_neg h]
  refine ⟨_, rfl, ?_, ?_, ?_, ?_, ?_, ?_, ?_⟩
  · simp [upd]
  · simp [upd]
  · rfl
  · simp only [upd, u8]
    split_ifs <;> omega
  · simp only [upd, u8]
    split_ifs <;> omega
  · intro a ha1 ha2
    simp [upd, u8] at ha1 ha2 ⊢
    split_ifs <;> first | rfl | omega
  · intro j hj4 hj5
    simp [upd, hj4, hj5]

/-- A successful call implies the capacity check passed. -/
theorem call_function_ok_not_overflow (s : VMState) (label : Nat) (s' : VMState)
    (h : call_function label s = Except.ok s') :
    ¬ s.sp > u8sub (u8sub STACK_MAX (s.ram (MAX_FUNCTIONS + label))) 4 := by
  intro hgt
  simp only [call_function] at h
  rw [if_pos hgt] at h
  exact Except.noConfusion h

/-- Unfolding of the overflow path of call_function: the error reports the
label and carries the machine state at the abort, in which only scratch
register 4 has been overwritten (with the capacity bound). -/
theorem call_function_overflow (s : VMState) (label : Nat)
    (h : s.sp > u8sub (u8sub STACK_MAX (s.ram (MAX_FUNCTIONS + label))) 4) :
    call_function label s = Except.error (VMErr.StackOverflow label
      { s with registers := upd s.registers 4 (u8sub (u8sub STACK_MAX (s.ram (MAX_FUNCTIONS + label))) 4) }) := by
  simp only [call_function]
  rw [if_pos h]

/-- Unfolding of a RET executed with a nonzero saved link pointer: the stack
pointer is restored from the byte at stack pointer + 1 and the program counter
from the adjacent byte, RAM and output are untouched, and the run continues. -/
theorem run_ret (t : VMState) (a1 a2 : arg_t)
    (h : t.ram (u8 (t.sp + 1)) ≠ 0) :
    ∃ t', run_instruction { opcode := Opcode.RET, arg1 := a1, arg2 := a2 } t =
        Except.ok (t', false) ∧
      t'.sp = u8 (t.ram (u8 (t.sp + 1))) ∧
      t'.pc = u8 (t.ram (u8 (t.sp + 2))) ∧
      t'.ram = t.ram ∧ t'.output = t.output := by
  simp only [run_instruction, upd_same]
  rw [if_neg h]
  refine ⟨_, rfl, by simp [upd], ?_, rfl, rfl⟩
  simp [upd, u8_succ_succ]

/-- Unfolding of a RET executed with a zero saved link pointer: the halt signal
is returned and only scratch register 4 (staging the header address) changes. -/
theorem run_ret_halt (t : VMState) (a1 a2 : arg_t)
    (h : t.ram (u8 (t.sp + 1)) = 0) :
    run_instruction { opcode := Opcode.RET, arg1 := a1, arg2 := a2 } t =
      Except.ok ({ t with registers := upd t.registers 4 (u8 (t.sp + 1)) }, true) := by
  simp only [run_instruction, upd_same]
  rw [if_pos h]

/-- A concrete machine state for witnesses: the frame-size table entry of
label 1 holds 3, every register holds 7, the program counter is 9 and the
stack pointer 20. -/
def demoS : VMState :=
  { ram := upd (fun _ => 0) (MAX_FUNCTIONS + 1) 3,
    registers := fun _ => 7, pc := 9, sp := 20, output := [] }

/-- A concrete machine state whose frame header (bytes 21 and 22 above the
stack pointer 20) holds the nonzero link pointer 12 and return address 34. -/
def demoRet : VMState :=
  { ram := upd (upd (fun _ => 0) 21 12) 22 34,
    registers := fun _ => 7, pc := 50, sp := 20, output := [] }

/-- A concrete machine state that overflows on any call to label 1: the
frame-size table entry of label 1 holds 200, so the capacity bound is 51,
below the stack pointer 100. -/
def demoOv : VMState :=
  { ram := upd (fun _ => 0) (MAX_FUNCTIONS + 1) 200,
    registers := fun _ => 7, pc := 9, sp := 100, output := [] }

/-- A concrete machine state whose registers all hold 200, so any ADD wraps. -/
def demoAdd : VMState :=
  { ram := fun _ => 0, registers := fun _ => 200, pc := 0, sp := 20, output := [] }

/-- Stack pointer of a successful result (0 for an error); lets concrete
counterexamples speak about the result state. -/
def result_sp (r : Except VMErr VMState) : Nat :=
  match r with
  | Except.ok t => t.sp
  | Except.error _ => 0

/-- The result state of a successful call, for concrete witnesses. -/
def after_call (r : Except VMErr VMState) (dflt : VMState) : VMState :=
  match r with
  | Except.ok t => t
  | Except.error _ => dflt

/-- The machine state carried by a stack-overflow abort. -/
def overflow_state (r : Except VMErr VMState) (dflt : VMState) : VMState :=
  match r with
  | Except.error (VMErr.StackOverflow _ t) => t
  | _ => dflt

/-- Whether a result is a stack-overflow abort reporting the given label. -/
def is_overflow_for (r : Except VMErr VMState) (label : Nat) : Bool :=
  match r with
  | Except.error (VMErr.StackOverflow l _) => l == label
  | _ => false

/-- C1 (counterexample): executing CAL with callee label 1 from the concrete
state demoS (stack pointer 20, frame size 3) yields stack pointer
25 = 20 + (2 + 3), which is not 20 − (2 + 3) = 15: the stack pointer does not
decrease by 2 + frame_size as the claim states. -/
theorem c1_counterexample :
    result_sp (call_function 1 demoS) = demoS.sp + (2 + demoS.ram (MAX_FUNCTIONS + 1)) ∧
    result_sp (call_function 1 demoS) ≠ demoS.sp - (2 + demoS.ram (MAX_FUNCTIONS + 1)) := by
  decide

/-- C1 (amended): for every executed CAL with callee label L that passes the
capacity check, the new stack pointer equals the old stack pointer plus
(2 + frame_size of L), as a byte: each new frame sits at a numerically higher
RAM address than its caller's frame, which is a lower address relative to the
fixed high-water mark STACK_MAX (frames are constructed backwards). -/
theorem c1_cal_stack_pointer (s : VMState) (label : Nat)
    (h : ¬ s.sp > u8sub (u8sub STACK_MAX (s.ram (MAX_FUNCTIONS + label))) 4) :
    ∃ s', call_function label s = Except.ok s' ∧
      s'.sp = u8 (s.sp + (2 + s.ram (MAX_FUNCTIONS + label))) := by
  obtain ⟨s', hok, hsp, _⟩ := call_function_ok s label h
  exact ⟨s', hok, by rw [hsp, Nat.add_assoc]⟩

/-- Witness for C1 at demoS: the capacity check passes and the new stack
pointer is 25 = 20 + (2 + 3). -/
theorem c1_cal_stack_pointer_witness :
    ∃ s', call_function 1 demoS = Except.ok s' ∧
      s'.sp = u8 (demoS.sp + (2 + demoS.ram (MAX_FUNCTIONS + 1))) :=
  c1_cal_stack_pointer demoS 1 (by decide)

/-- C2: executing RET signals termination of the whole run exactly when the
saved link-pointer byte read from the current frame's header (at stack
pointer + 1) is the zero sentinel; otherwise the stack pointer becomes the
saved link value and the program counter the saved return-address byte in the
adjacent cell, and the run continues.  Moreover the bootstrap writes that zero
sentinel into the entry frame's header. -/
theorem c2_ret_termination (s : VMState) (a1 a2 : arg_t) :
    (∃ s' halt,
      run_instruction { opcode := Opcode.RET, arg1 := a1, arg2 := a2 } s =
        Except.ok (s', halt) ∧
      (halt = true ↔ s.ram (u8 (s.sp + 1)) = 0) ∧
      (s.ram (u8 (s.sp + 1)) ≠ 0 →
        s'.sp = u8 (s.ram (u8 (s.sp + 1))) ∧
        s'.pc = u8 (s.ram (u8 (s.sp + 2))))) ∧
    (∀ fns s0 prog, vm_x2017 fns = Except.ok (s0, prog) →
      s0.ram (u8 (s0.sp + 1)) = 0) := by
  constructor
  · by_cases h : s.ram (u8 (s.sp + 1)) = 0
    · exact ⟨_, _, run_ret_halt s a1 a2 h, by simp [h], fun hn => absurd h hn⟩
    · obtain ⟨t', ht, hsp, hpc, _, _⟩ := run_ret s a1 a2 h
      exact ⟨t', false, ht, by simp [h], fun _ => ⟨hsp, hpc⟩⟩
  · intro fns s0 prog hb
    unfold vm_x2017 at hb
    split at hb
    · exact Except.noConfusion hb
    · split at hb
      · exact Except.noConfusion hb
      · injection hb with hb1
        injection hb1 with hb2 hb3
        subst hb2
        exact upd_same _ _ _

/-- Witness for C2 at demoRet, whose saved link byte 12 is nonzero. -/
theorem c2_ret_termination_witness :
    demoRet.ram (u8 (demoRet.sp + 1)) ≠ 0 ∧
    (∃ s' halt,
      run_instruction { opcode := Opcode.RET,
                        arg1 := { type := ArgType.VAL, value := 0 },
                        arg2 := { type := ArgType.VAL, value := 0 } } demoRet =
        Except.ok (s', halt) ∧
      (halt = true ↔ demoRet.ram (u8 (demoRet.sp + 1)) = 0) ∧
      (demoRet.ram (u8 (demoRet.sp + 1)) ≠ 0 →
        s'.sp = u8 (demoRet.ram (u8 (demoRet.sp + 1))) ∧
        s'.pc = u8 (demoRet.ram (u8 (demoRet.sp + 2))))) :=
  ⟨by decide,
   (c2_ret_termination demoRet { type := ArgType.VAL, value := 0 }
      { type := ArgType.VAL, value := 0 }).1⟩

/-- C3: a CAL that passes the capacity check stores the two linkage bytes
immediately above the new stack pointer, in order: the caller's stack pointer
at new stack pointer + 1 and the caller's program counter at new stack
pointer + 2; a RET executed in the resulting state reads the link pointer and
return address back from exactly those positions. -/
theorem c3_linkage_bytes (s : VMState) (label : Nat) (a1 a2 : arg_t)
    (h : ¬ s.sp > u8sub (u8sub STACK_MAX (s.ram (MAX_FUNCTIONS + label))) 4)
    (hlink : u8 s.sp ≠ 0) :
    ∃ s', call_function label s = Except.ok s' ∧
      s'.ram (u8 (s'.sp + 1)) = u8 s.sp ∧
      s'.ram (u8 (s'.sp + 2)) = u8 s.pc ∧
      ∃ t, run_instruction { opcode := Opcode.RET, arg1 := a1, arg2 := a2 } s' =
          Except.ok (t, false) ∧
        t.sp = u8 s.sp ∧ t.pc = u8 s.pc := by
  obtain ⟨s', hok, hsp, hpc, hout, h1, h2, _, _⟩ := call_function_ok s label h
  have hne : s'.ram (u8 (s'.sp + 1)) ≠ 0 := by rw [h1]; exact hlink
  obtain ⟨t, ht, htsp, htpc, _, _⟩ := run_ret s' a1 a2 hne
  refine ⟨s', hok, h1, h2, t, ht, ?_, ?_⟩
  · rw [htsp, h1, u8_u8]
  · rw [htpc, h2, u8_u8]

/-- Witness for C3 at demoS with callee label 1. -/
theorem c3_linkage_bytes_witness :
    ∃ s', call_function 1 demoS = Except.ok s' ∧
      s'.ram (u8 (s'.sp + 1)) = u8 demoS.sp ∧
      s'.ram (u8 (s'.sp + 2)) = u8 demoS.pc ∧
      ∃ t, run_instruction { opcode := Opcode.RET,
                             arg1 := { type := ArgType.VAL, value := 0 },
                             arg2 := { type := ArgType.VAL, value := 0 } } s' =
          Except.ok (t, false) ∧
        t.sp = u8 demoS.sp ∧ t.pc = u8 demoS.pc :=
  c3_linkage_bytes demoS 1 { type := ArgType.VAL, value := 0 }
    { type := ArgType.VAL, value := 0 } (by decide) (by decide)

/-- C4: after a CAL and its matching RET — a RET executed at the stack pointer
the CAL produced, with the link byte the CAL wrote still in place — the stack
pointer equals the value it had immediately before the CAL. -/
theorem c4_call_return_balance (s s' t : VMState) (label : Nat) (a1 a2 : arg_t)
    (hcal : call_function label s = Except.ok s')
    (hsp256 : s.sp < 256) (hsp0 : s.sp ≠ 0)
    (_htsp : t.sp = s'.sp)
    (hhdr : t.ram (u8 (t.sp + 1)) = s'.ram (u8 (s'.sp + 1))) :
    ∃ t', run_instruction { opcode := Opcode.RET, arg1 := a1, arg2 := a2 } t =
        Except.ok (t', false) ∧
      t'.sp = s.sp := by
  have hno := call_function_ok_not_overflow s label s' hcal
  obtain ⟨s'', hok, hsp, hpc, hout, h1, h2, _, _⟩ := call_function_ok s label hno
  rw [hcal] at hok
  injection hok with he
  subst he
  have hu8 : u8 s.sp = s.sp := by unfold u8; omega
  have hne : t.ram (u8 (t.sp + 1)) ≠ 0 := by
    rw [hhdr, h1, hu8]; exact hsp0
  obtain ⟨t', ht, htsp', _, _, _⟩ := run_ret t a1 a2 hne
  refine ⟨t', ht, ?_⟩
  rw [htsp', hhdr, h1, u8_u8, hu8]

/-- Witness for C4: calling label 1 from demoS and returning immediately
restores the stack pointer 20. -/
theorem c4_call_return_balance_witness :
    ∃ t', run_instruction { opcode := Opcode.RET,
                            arg1 := { type := ArgType.VAL, value := 0 },
                            arg2 := { type := ArgType.VAL, value := 0 } }
        (after_call (call_function 1 demoS) demoS) = Except.ok (t', false) ∧
      t'.sp = demoS.sp :=
  c4_call_return_balance demoS (after_call (call_function 1 demoS) demoS)
    (after_call (call_function 1 demoS) demoS) 1
    { type := ArgType.VAL, value := 0 } { type := ArgType.VAL, value := 0 }
    rfl (by decide) (by decide) rfl rfl

/-- C5 (counterexample): at the concrete state demoOv (stack pointer 100,
frame size 200, every register 7) the CAL to label 1 aborts with a
stack-overflow, but scratch register 4 has already been overwritten with the
capacity bound 51 before the abort, so the abort does not happen before every
register mutation of that call. -/
theorem c5_counterexample :
    is_overflow_for (call_function 1 demoOv) 1 = true ∧
    (overflow_state (call_function 1 demoOv) demoOv).registers 4 ≠
      demoOv.registers 4 := by
  decide

/-- C5 (amended): when a CAL would place the new frame beyond the reserved
stack capacity bound, the run aborts with a fatal stack-overflow error
reporting the offending label, and the abort happens before any RAM mutation,
any stack pointer, program counter or output change, and any mutation of the
registers other than internal scratch register 4, which the check stages the
capacity bound in; no partial frame is ever constructed in RAM. -/
theorem c5_overflow_abort (s : VMState) (label : Nat)
    (h : s.sp > u8sub (u8sub STACK_MAX (s.ram (MAX_FUNCTIONS + label))) 4) :
    ∃ t, call_function label s = Except.error (VMErr.StackOverflow label t) ∧
      t.ram = s.ram ∧ t.sp = s.sp ∧ t.pc = s.pc ∧ t.output = s.output ∧
      t.registers 4 = u8sub (u8sub STACK_MAX (s.ram (MAX_FUNCTIONS + label))) 4 ∧
      ∀ j, j ≠ 4 → t.registers j = s.registers j := by
  refine ⟨_, call_function_overflow s label h, rfl, rfl, rfl, rfl, ?_, ?_⟩
  · simp [upd]
  · intro j hj
    simp [upd, hj]

/-- Witness for C5 at demoOv. -/
theorem c5_overflow_abort_witness :
    ∃ t, call_function 1 demoOv = Except.error (VMErr.StackOverflow 1 t) ∧
      t.ram = demoOv.ram ∧ t.sp = demoOv.sp ∧ t.pc = demoOv.pc ∧
      t.output = demoOv.output ∧
      t.registers 4 = u8sub (u8sub STACK_MAX (demoOv.ram (MAX_FUNCTIONS + 1))) 4 ∧
      ∀ j, j ≠ 4 → t.registers j = demoOv.registers j :=
  c5_overflow_abort demoOv 1 (by decide)

/-- C6: every operand-mode constraint violation aborts the dispatch
immediately and fatally with the diagnostic identifying the violated
constraint: MOV with a VAL-moded first argument, CAL with a non-VAL first
argument, REF with a second argument neither STACK nor PTR, ADD with a
non-REG argument on either side, and NOT or EQU with a non-REG first
argument. -/
theorem c6_operand_constraints (s : VMState) (a1 a2 : arg_t) :
    (a1.type = ArgType.VAL →
      run_instruction { opcode := Opcode.MOV, arg1 := a1, arg2 := a2 } s =
        Except.error VMErr.BadMovArg1) ∧
    (a1.type ≠ ArgType.VAL →
      run_instruction { opcode := Opcode.CAL, arg1 := a1, arg2 := a2 } s =
        Except.error VMErr.BadCalArg1) ∧
    (a2.type ≠ ArgType.STACK → a2.type ≠ ArgType.PTR →
      run_instruction { opcode := Opcode.REF, arg1 := a1, arg2 := a2 } s =
        Except.error VMErr.BadRefArg2) ∧
    (a1.type ≠ ArgType.REG ∨ a2.type ≠ ArgType.REG →
      run_instruction { opcode := Opcode.ADD, arg1 := a1, arg2 := a2 } s =
        Except.error VMErr.BadAddArgs) ∧
    (a1.type ≠ ArgType.REG →
      run_instruction { opcode := Opcode.NOT, arg1 := a1, arg2 := a2 } s =
        Except.error VMErr.BadNotArg1) ∧
    (a1.type ≠ ArgType.REG →
      run_instruction { opcode := Opcode.EQU, arg1 := a1, arg2 := a2 } s =
        Except.error VMErr.BadEquArg1) := by
  refine ⟨fun h => ?_, fun h => ?_, fun h h2 => ?_, fun h => ?_,
    fun h => ?_, fun h => ?_⟩
  · simp only [run_instruction]
    rw [if_pos h]
  · simp only [run_instruction]
    rw [if_pos h]
  · simp only [run_instruction]
    rw [if_pos ⟨h, h2⟩]
  · simp only [run_instruction]
    rw [if_pos h]
  · simp only [run_instruction]
    rw [if_pos h]
  · simp only [run_instruction]
    rw [if_pos h]

/-- Witness for C6: one concrete violation of each of the six constraints. -/
theorem c6_operand_constraints_witness :
    run_instruction { opcode := Opcode.MOV,
                      arg1 := { type := ArgType.VAL, value := 1 },
                      arg2 := { type := ArgType.VAL, value := 2 } } demoS =
      Except.error VMErr.BadMovArg1 ∧
    run_instruction { opcode := Opcode.CAL,
                      arg1 := { type := ArgType.REG, value := 1 },
                      arg2 := { type := ArgType.VAL, value := 2 } } demoS =
      Except.error VMErr.BadCalArg1 ∧
    run_instruction { opcode := Opcode.REF,
                      arg1 := { type := ArgType.REG, value := 1 },
                      arg2 := { type := ArgType.REG, value := 2 } } demoS =
      Except.error VMErr.BadRefArg2 ∧
    run_instruction { opcode := Opcode.ADD,
                      arg1 := { type := ArgType.VAL, value := 1 },
                      arg2 := { type := ArgType.REG, value := 2 } } demoS =
      Except.error VMErr.BadAddArgs ∧
    run_instruction { opcode := Opcode.NOT,
                      arg1 := { type := ArgType.VAL, value := 1 },
                      arg2 := { type := ArgType.VAL, value := 2 } } demoS =
      Except.error VMErr.BadNotArg1 ∧
    run_instruction { opcode := Opcode.EQU,
                      arg1 := { type := ArgType.STACK, value := 1 },
                      arg2 := { type := ArgType.VAL, value := 2 } } demoS =
      Except.error VMErr.BadEquArg1 :=
  ⟨(c6_operand_constraints demoS _ _).1 rfl,
   (c6_operand_constraints demoS _ _).2.1 (by decide),
   (c6_operand_constraints demoS _ _).2.2.1 (by decide) (by decide),
   (c6_operand_constraints demoS _ _).2.2.2.1 (Or.inl (by decide)),
   (c6_operand_constraints demoS _ _).2.2.2.2.1 (by decide),
   (c6_operand_constraints demoS _ _).2.2.2.2.2 (by decide)⟩

/-- C7: the operand read returns, for a VAL operand, the literal itself; for a
REG operand, the named register's value; for a STACK operand, the RAM byte at
the symbolic offset resolved against the current stack pointer; and for a PTR
operand, the RAM byte at the address given by the byte found at the resolved
offset (one level of indirection beyond STACK). -/
theorem c7_arg_value_modes (a : arg_t) (ram registers : Nat → Nat) (sp : Nat) :
    (a.type = ArgType.VAL → (arg_value a ram registers sp).1 = a.value) ∧
    (a.type = ArgType.REG → (arg_value a ram registers sp).1 = registers a.value) ∧
    (a.type = ArgType.STACK →
      (arg_value a ram registers sp).1 = ram (STACK_LOC sp a.value)) ∧
    (a.type = ArgType.PTR →
      (arg_value a ram registers sp).1 = ram (u8 (ram (STACK_LOC sp a.value)))) := by
  rcases a with ⟨ty, v⟩
  cases ty
  · exact ⟨fun _ => rfl, fun h => ArgType.noConfusion h,
      fun h => ArgType.noConfusion h, fun h => ArgType.noConfusion h⟩
  · exact ⟨fun h => ArgType.noConfusion h, fun _ => rfl,
      fun h => ArgType.noConfusion h, fun h => ArgType.noConfusion h⟩
  · exact ⟨fun h => ArgType.noConfusion h, fun h => ArgType.noConfusion h,
      fun _ => by simp [arg_value, upd_same], fun h => ArgType.noConfusion h⟩
  · exact ⟨fun h => ArgType.noConfusion h, fun h => ArgType.noConfusion h,
      fun h => ArgType.noConfusion h, fun _ => by simp [arg_value, upd, u8]⟩

/-- Witness for C7: one read per addressing mode against demoS's memory. -/
theorem c7_arg_value_modes_witness :
    (arg_value { type := ArgType.VAL, value := 5 } demoS.ram demoS.registers 20).1 = 5 ∧
    (arg_value { type := ArgType.REG, value := 2 } demoS.ram demoS.registers 20).1 =
      demoS.registers 2 ∧
    (arg_value { type := ArgType.STACK, value := 3 } demoS.ram demoS.registers 20).1 =
      demoS.ram (STACK_LOC 20 3) ∧
    (arg_value { type := ArgType.PTR, value := 3 } demoS.ram demoS.registers 20).1 =
      demoS.ram (u8 (demoS.ram (STACK_LOC 20 3))) :=
  ⟨(c7_arg_value_modes _ _ _ _).1 rfl,
   (c7_arg_value_modes _ _ _ _).2.1 rfl,
   (c7_arg_value_modes _ _ _ _).2.2.1 rfl,
   (c7_arg_value_modes _ _ _ _).2.2.2 rfl⟩

/-- C8: ADD of two register operands stores the wrapped byte sum
(a + b) mod 256 into the destination register and raises no fatal error, in
particular when the values sum to 256 or more. -/
theorem c8_add_wraparound (s : VMState) (x y : Nat)
    (_hsum : 256 ≤ s.registers x + s.registers y) :
    ∃ s', run_instruction { opcode := Opcode.ADD,
                            arg1 := { type := ArgType.REG, value := x },
                            arg2 := { type := ArgType.REG, value := y } } s =
        Except.ok (s', false) ∧
      s'.registers x = (s.registers x + s.registers y) % 256 := by
  simp only [run_instruction]
  rw [if_neg (by simp)]
  exact ⟨_, rfl, by simp [upd, u8]⟩

/-- Witness for C8 at demoAdd: 200 + 200 = 400 ≥ 256 wraps to 144. -/
theorem c8_add_wraparound_witness :
    ∃ s', run_instruction { opcode := Opcode.ADD,
                            arg1 := { type := ArgType.REG, value := 1 },
                            arg2 := { type := ArgType.REG, value := 2 } } demoAdd =
      Except.ok (s', false) ∧
      s'.registers 1 = (demoAdd.registers 1 + demoAdd.registers 2) % 256 :=
  c8_add_wraparound demoAdd 1 2 (by decide)

/-- C9: the write/move helper treats a VAL-moded destination as a no-op — it
returns RAM and the register file unchanged and raises no error — and a REF
instruction with a VAL-moded first argument executes without fault, leaving
RAM, the stack pointer, the program counter, the output and every register
other than internal scratch register 4 unchanged. -/
theorem c9_val_write_noop :
    (∀ (a : arg_t) (ram registers : Nat → Nat) (sp : Nat),
      a.type = ArgType.VAL → mov a ram registers sp = (ram, registers)) ∧
    (∀ (s : VMState) (a1 a2 : arg_t), a1.type = ArgType.VAL →
      (a2.type = ArgType.STACK ∨ a2.type = ArgType.PTR) →
      ∃ s', run_instruction { opcode := Opcode.REF, arg1 := a1, arg2 := a2 } s =
          Except.ok (s', false) ∧
        s'.ram = s.ram ∧ s'.sp = s.sp ∧ s'.pc = s.pc ∧ s'.output = s.output ∧
        ∀ j, j ≠ 4 → s'.registers j = s.registers j) := by
  constructor
  · intro a ram registers sp h
    rcases a with ⟨ty, v⟩
    cases h
    rfl
  · intro s a1 a2 h1 h2
    rcases a1 with ⟨ty1, v1⟩
    cases h1
    have hguard : ¬(a2.type ≠ ArgType.STACK ∧ a2.type ≠ ArgType.PTR) := by
      rcases h2 with h2 | h2 <;> simp [h2]
    simp only [run_instruction]
    rw [if_neg hguard]
    refine ⟨_, rfl, ?_, rfl, rfl, rfl, ?_⟩
    · simp [mov]
    · intro j hj
      rcases h2 with h2 | h2 <;> simp [mov, h2, upd, hj]

/-- Witness for C9: the VAL no-op of mov at concrete memories, and a REF with
VAL first argument and STACK second argument at demoS. -/
theorem c9_val_write_noop_witness :
    mov { type := ArgType.VAL, value := 5 } demoS.ram demoS.registers 20 =
      (demoS.ram, demoS.registers) ∧
    (∃ s', run_instruction { opcode := Opcode.REF,
                             arg1 := { type := ArgType.VAL, value := 5 },
                             arg2 := { type := ArgType.STACK, value := 3 } } demoS =
        Except.ok (s', false) ∧
      s'.ram = demoS.ram ∧ s'.sp = demoS.sp ∧ s'.pc = demoS.pc ∧
      s'.output = demoS.output ∧
      ∀ j, j ≠ 4 → s'.registers j = demoS.registers j) :=
  ⟨c9_val_write_noop.1 _ _ _ _ rfl,
   c9_val_write_noop.2 demoS _ _ rfl (Or.inl rfl)⟩

/-- C10: the dispatcher increments the program counter at fetch, so the return
address a CAL saves in the new frame's header is the flat index of the
instruction immediately after the CAL, and the matching RET resumes execution
there. -/
theorem c10_return_address (prog : Nat → inst_t) (s : VMState) (label : Nat)
    (a2 b1 b2 : arg_t)
    (hfetch : prog s.pc = { opcode := Opcode.CAL,
                            arg1 := { type := ArgType.VAL, value := label },
                            arg2 := a2 })
    (hpc : s.pc + 1 < 256)
    (h : ¬ s.sp > u8sub (u8sub STACK_MAX (s.ram (MAX_FUNCTIONS + label))) 4)
    (hlink : u8 s.sp ≠ 0) :
    ∃ s', step prog s = Except.ok (s', false) ∧
      s'.ram (u8 (s'.sp + 2)) = s.pc + 1 ∧
      ∃ t, run_instruction { opcode := Opcode.RET, arg1 := b1, arg2 := b2 } s' =
          Except.ok (t, false) ∧
        t.pc = s.pc + 1 := by
  obtain ⟨s', hok, hsp, hpc', hout, h1, h2, _, _⟩ :=
    call_function_ok { s with pc := u8 (s.pc + 1) } label h
  have h1' : s'.ram (u8 (s'.sp + 1)) = u8 s.sp := h1
  have h2' : s'.ram (u8 (s'.sp + 2)) = u8 (u8 (s.pc + 1)) := h2
  have hretaddr : s'.ram (u8 (s'.sp + 2)) = s.pc + 1 := by
    rw [h2', u8_u8]
    unfold u8
    omega
  have hstep : step prog s = Except.ok (s', false) := by
    unfold step
    rw [hfetch]
    simp only [run_instruction]
    rw [if_neg (by simp)]
    rw [hok]
  have hne : s'.ram (u8 (s'.sp + 1)) ≠ 0 := by rw [h1']; exact hlink
  obtain ⟨t, ht, _, htpc, _, _⟩ := run_ret s' b1 b2 hne
  refine ⟨s', hstep, hretaddr, t, ht, ?_⟩
  rw [htpc, hretaddr]
  unfold u8
  omega

/-- Witness for C10: a CAL to label 1 fetched at program counter 9 of demoS
saves return address 10, where the immediate RET resumes. -/
theorem c10_return_address_witness :
    ∃ s', step (fun _ => { opcode := Opcode.CAL,
                           arg1 := { type := ArgType.VAL, value := 1 },
                           arg2 := { type := ArgType.VAL, value := 0 } }) demoS =
      Except.ok (s', false) ∧
      s'.ram (u8 (s'.sp + 2)) = demoS.pc + 1 ∧
      ∃ t, run_instruction { opcode := Opcode.RET,
                             arg1 := { type := ArgType.VAL, value := 0 },
                             arg2 := { type := ArgType.VAL, value := 0 } } s' =
          Except.ok (t, false) ∧
        t.pc = demoS.pc + 1 :=
  c10_return_address
    (fun _ => { opcode := Opcode.CAL,
                arg1 := { type := ArgType.VAL, value := 1 },
                arg2 := { type := ArgType.VAL, value := 0 } })
    demoS 1 { type := ArgType.VAL, value := 0 }
    { type := ArgType.VAL, value := 0 } { type := ArgType.VAL, value := 0 }
    rfl (by decide) (by decide) (by decide)

end X2017
